import Mathlib

/-!
Verification development for the shrike-guard-js SDK core: the scan-result
sanitizer (src/sanitizer.ts), the scan transport and size guard
(src/scanner.ts), the per-provider content extractors and interception
wrappers (src/openai/client.ts, src/anthropic/client.ts,
src/gemini/client.ts), and the fail-open/fail-closed policy.

JavaScript numbers are modelled as rationals (all numeric literals involved
are exactly representable at the granularity the properties use), strings as
Lean strings (all relevant string operations are ASCII-only here), and JSON
payload fields of uncertain runtime type as an explicit JS-value type.
-/

namespace ShrikeGuard

/-- Confidence field of a scan result: the TS type is number or string. -/
inductive ConfVal where
  | num (q : ℚ)
  | str (s : String)
deriving DecidableEq, Repr

/-- Runtime JavaScript value, for raw payload fields whose runtime type is
not guaranteed by the TS interface (a raw backend JSON body is cast, not
validated). -/
inductive JVal where
  | undef
  | null
  | bool (b : Bool)
  | num (q : ℚ)
  | str (s : String)
deriving DecidableEq, Repr

/-- Violation descriptor, as synthesized in scanner.ts size-limit verdicts
and passed around opaquely otherwise. -/
structure Violation where
  type : String
  description : String
deriving DecidableEq, Repr

/-- Raw backend scan payload, per the ScanResult interface of scanner.ts
(safe, reason, threat_type, severity, confidence, violations, guidance),
with fields that the sanitizer inspects dynamically kept as JS values, and
the index signature (unknown extra fields such as detected_by) as a
key-value list. -/
structure RawScan where
  safe : JVal
  reason : Option String
  threat_type : Option String
  severity : JVal
  confidence : JVal
  violations : Option (List Violation)
  guidance : Option String
  extra : List (String × String)
deriving DecidableEq, Repr

/-- Sanitized / locally synthesized scan verdict (a ScanResult value as the
SDK constructs it: object literals with exactly the named fields). Absent
optional fields are none; the extra list holds any additional index-signature
fields (object literals in the SDK never add any, hence the default). -/
structure ScanVerdict where
  safe : Bool
  reason : String
  threat_type : Option String := none
  severity : Option String := none
  confidence : Option ConfVal := none
  guidance : Option String := none
  violations : Option (List Violation) := none
  extra : List (String × String) := []
deriving DecidableEq, Repr

/-- THREAT_TYPE_MAP of sanitizer.ts, in source order. -/
def THREAT_TYPE_MAP : List (String × String) := [
  ("prompt_injection", "prompt_injection"),
  ("injection", "prompt_injection"),
  ("inject", "prompt_injection"),
  ("instruction_override", "prompt_injection"),
  ("role_hijacking", "prompt_injection"),
  ("context_manipulation", "prompt_injection"),
  ("token_manipulation", "prompt_injection"),
  ("indirect_injection", "prompt_injection"),
  ("context_poisoning", "prompt_injection"),
  ("function_injection", "prompt_injection"),
  ("memory_injection", "prompt_injection"),
  ("topic_mismatch", "prompt_injection"),
  ("jailbreak", "jailbreak"),
  ("jailbreak_attempt", "jailbreak"),
  ("safety_bypass", "jailbreak"),
  ("roleplay", "jailbreak"),
  ("hypothetical", "jailbreak"),
  ("completion_baiting", "jailbreak"),
  ("override", "jailbreak"),
  ("manipulate", "jailbreak"),
  ("tonality_drift_profanity", "jailbreak"),
  ("tonality_drift_casual", "jailbreak"),
  ("tonality_drift_hostile", "jailbreak"),
  ("system_prompt_leak", "system_prompt_leak"),
  ("system_prompt_extraction", "system_prompt_leak"),
  ("data_exfiltration", "data_exfiltration"),
  ("exfiltration", "data_exfiltration"),
  ("exfiltrate", "data_exfiltration"),
  ("extract", "data_exfiltration"),
  ("data_leak", "data_exfiltration"),
  ("information_disclosure", "data_exfiltration"),
  ("credential_extraction", "data_exfiltration"),
  ("sql_injection", "sql_injection"),
  ("sqli", "sql_injection"),
  ("tautology", "sql_injection"),
  ("tautology_or", "sql_injection"),
  ("tautology_and", "sql_injection"),
  ("union_injection", "sql_injection"),
  ("stacked_query", "sql_injection"),
  ("path_traversal", "path_traversal"),
  ("directory_traversal", "path_traversal"),
  ("path_violation", "path_traversal"),
  ("file_access", "path_traversal"),
  ("sensitive_path", "path_traversal"),
  ("sensitive_extension", "path_traversal"),
  ("blocked_extension", "path_traversal"),
  ("secrets_exposure", "secrets_exposure"),
  ("secrets", "secrets_exposure"),
  ("api_key", "secrets_exposure"),
  ("credential", "secrets_exposure"),
  ("sensitive_file", "secrets_exposure"),
  ("content_violation", "secrets_exposure"),
  ("sensitive_content", "secrets_exposure"),
  ("secret_key", "secrets_exposure"),
  ("aws_key", "secrets_exposure"),
  ("private_key", "secrets_exposure"),
  ("pii_exposure", "pii_exposure"),
  ("pii", "pii_exposure"),
  ("pii_leak", "pii_exposure"),
  ("personal_data", "pii_exposure"),
  ("pii_in_search", "pii_exposure"),
  ("pii_extraction", "pii_exposure"),
  ("ssn", "pii_exposure"),
  ("credit_card", "pii_exposure"),
  ("email_exposure", "pii_exposure"),
  ("phone_number", "pii_exposure"),
  ("unexpected_pii_leakage", "pii_exposure"),
  ("blocked_domain", "blocked_domain"),
  ("suspicious_tld", "blocked_domain"),
  ("suspicious_domain", "blocked_domain"),
  ("malicious_url", "blocked_domain"),
  ("toxicity", "toxicity"),
  ("harmful_content", "toxicity"),
  ("malicious_content", "malicious_code"),
  ("malicious_code", "malicious_code"),
  ("reverse_shell", "malicious_code"),
  ("web_shell", "malicious_code"),
  ("fork_bomb", "malicious_code"),
  ("crypto_miner", "malicious_code"),
  ("persistence", "malicious_code"),
  ("shell_injection", "malicious_code"),
  ("harmful_intent", "harmful_intent"),
  ("dangerous_request", "harmful_intent"),
  ("social_engineering", "social_engineering"),
  ("emotional", "social_engineering"),
  ("authority_claim", "social_engineering"),
  ("privilege_escalation", "privilege_escalation"),
  ("destructive_operation", "destructive_operation"),
  ("scan_error", "scan_error"),
  ("size_limit_exceeded", "size_limit_exceeded"),
  ("size_limit", "size_limit_exceeded"),
  ("timeout", "scan_error")]

/-- THREAT_GUIDANCE of sanitizer.ts. -/
def THREAT_GUIDANCE : List (String × String) := [
  ("prompt_injection",
    "This prompt contains patterns consistent with instruction override attempts."),
  ("jailbreak",
    "This prompt attempts to bypass safety guidelines. The request has been blocked."),
  ("system_prompt_leak",
    "The response contains system prompt disclosure. The response has been blocked."),
  ("data_exfiltration",
    "This prompt may attempt to extract sensitive information."),
  ("sql_injection", "This query contains potentially dangerous SQL patterns."),
  ("path_traversal",
    "This file path attempts to access directories outside the allowed scope."),
  ("secrets_exposure",
    "This content contains patterns matching API keys, tokens, or credentials."),
  ("pii_exposure", "This content contains personally identifiable information."),
  ("blocked_domain", "This web search targets a restricted domain."),
  ("toxicity",
    "This content contains potentially harmful or inappropriate language."),
  ("malicious_code",
    "This content contains patterns associated with malicious code."),
  ("harmful_intent",
    "This request contains content associated with harmful intent."),
  ("social_engineering",
    "This prompt contains social engineering patterns."),
  ("privilege_escalation",
    "This query attempts to escalate privileges or gain unauthorized access."),
  ("destructive_operation",
    "This query contains destructive operations. Review carefully."),
  ("scan_error",
    "The security scan could not be completed. Blocked as precaution."),
  ("size_limit_exceeded", "The content exceeds the maximum allowed size."),
  ("unknown", "A security concern was detected. Please review the content.")]

/-- THREAT_SEVERITY of sanitizer.ts. -/
def THREAT_SEVERITY : List (String × String) := [
  ("prompt_injection", "high"),
  ("jailbreak", "high"),
  ("system_prompt_leak", "high"),
  ("data_exfiltration", "high"),
  ("sql_injection", "critical"),
  ("path_traversal", "high"),
  ("secrets_exposure", "critical"),
  ("pii_exposure", "high"),
  ("blocked_domain", "medium"),
  ("toxicity", "medium"),
  ("malicious_code", "critical"),
  ("harmful_intent", "high"),
  ("social_engineering", "medium"),
  ("privilege_escalation", "critical"),
  ("destructive_operation", "critical"),
  ("scan_error", "medium"),
  ("size_limit_exceeded", "low"),
  ("unknown", "medium")]

/-- INTERNAL_FIELDS of sanitizer.ts: keys that must never reach a sanitized
output. -/
def INTERNAL_FIELDS : List String :=
  ["detected_by", "policy_id", "policy_name", "matched_pattern",
   "matched_text", "pattern", "scan_stage", "ai_reasoning",
   "llm_analysis", "performance_metrics", "performance"]

/-- ASCII lowercase of a string: embeds the JS toLowerCase calls of
sanitizer.ts (all table keys and valid severities are ASCII). -/
def jsToLower (s : String) : String :=
  String.mk (s.data.map Char.toLower)

/-- Embeds rawType.toLowerCase().replace "-" to "_" of normalizeThreatType
(per-character, which agrees with the global regex replace). -/
def jsNormalize (s : String) : String :=
  String.mk (s.data.map (fun c => if c.toLower = Char.ofNat 45 then Char.ofNat 95 else c.toLower))

/-- Embeds the JS idiom (x or-else d) on an optional string: undefined and
the empty string (both falsy) fall back to the default. -/
def jsOrStr (x : Option String) (d : String) : String :=
  match x with
  | some s => if s = "" then d else s
  | none => d

/-- normalizeThreatType of sanitizer.ts, own-property view: falsy input
(absent or empty) maps to unknown, otherwise case-insensitive
hyphen-to-underscore lookup among the own entries of THREAT_TYPE_MAP with
fallback unknown. Caveat: the source performs a JS object-bracket lookup,
which also sees the prototype chain of the object literal; this definition
agrees with the source except when the normalized key is an all-lowercase
member name of Object.prototype (constructor or the proto accessor), where
the source returns the truthy inherited non-string value instead — that
behavior is modelled faithfully by normalizeThreatTypeJS below. -/
def normalizeThreatType (rawType : Option String) : String :=
  match rawType with
  | none => "unknown"
  | some t =>
    if t = "" then "unknown"
    else jsOrStr (THREAT_TYPE_MAP.lookup (jsNormalize t)) "unknown"

/-- Property names inherited by every plain object literal from
Object.prototype; a bracket lookup on THREAT_TYPE_MAP with one of these
keys yields a truthy non-string value (a function, or Object.prototype
itself for the proto accessor) rather than undefined. -/
def OBJECT_PROTOTYPE_KEYS : List String :=
  ["constructor", "hasOwnProperty", "isPrototypeOf", "propertyIsEnumerable",
   "toLocaleString", "toString", "valueOf",
   "__defineGetter__", "__defineSetter__", "__lookupGetter__",
   "__lookupSetter__", "__proto__"]

/-- Result of a JS object-bracket lookup on a string-valued object literal:
an own entry, a truthy non-string member inherited from Object.prototype,
or undefined. -/
inductive JsLookup where
  | own (v : String)
  | inherited
  | undef
deriving DecidableEq, Repr

/-- JS object-bracket lookup on an object literal holding the given
entries, prototype chain included. -/
def jsIndex (m : List (String × String)) (k : String) : JsLookup :=
  match m.lookup k with
  | some v => JsLookup.own v
  | none => if k ∈ OBJECT_PROTOTYPE_KEYS then JsLookup.inherited else JsLookup.undef

/-- Runtime result of normalizeThreatType: a string, or — when the bracket
lookup hit the prototype chain — the truthy inherited non-string value
(carried here by the key that reached it), which the or-else unknown
fallback does not replace. -/
inductive ThreatTypeResult where
  | str (s : String)
  | protoLeak (key : String)
deriving DecidableEq, Repr

/-- normalizeThreatType of sanitizer.ts with the object-bracket lookup
modelled in full, prototype chain included: falsy input maps to the unknown
string; an own table entry is returned through the or-else unknown
truthiness fallback; a normalized key naming an Object.prototype member
returns that truthy inherited non-string value as-is; anything else falls
back to unknown. -/
def normalizeThreatTypeJS (rawType : Option String) : ThreatTypeResult :=
  match rawType with
  | none => ThreatTypeResult.str "unknown"
  | some t =>
    if t = "" then ThreatTypeResult.str "unknown"
    else
      match jsIndex THREAT_TYPE_MAP (jsNormalize t) with
      | JsLookup.own v => ThreatTypeResult.str (jsOrStr (some v) "unknown")
      | JsLookup.inherited => ThreatTypeResult.protoLeak (jsNormalize t)
      | JsLookup.undef => ThreatTypeResult.str "unknown"

/-- Valid severities accepted from the backend (deriveSeverity). -/
def VALID_SEVERITIES : List String := ["critical", "high", "medium", "low"]

/-- deriveSeverity of sanitizer.ts: a truthy raw severity whose lowercase is
one of the four valid strings is used; otherwise the per-threat-type default
table with final fallback medium. -/
def deriveSeverity (threatType : String) (rawSeverity : Option String) : String :=
  match rawSeverity with
  | some s =>
    if s ≠ "" ∧ jsToLower s ∈ VALID_SEVERITIES then jsToLower s
    else jsOrStr (THREAT_SEVERITY.lookup threatType) "medium"
  | none => jsOrStr (THREAT_SEVERITY.lookup threatType) "medium"

/-- bucketConfidence of sanitizer.ts: absent score maps to medium, otherwise
bucket by the 0.9 and 0.7 thresholds. -/
def bucketConfidence (score : Option ℚ) : String :=
  match score with
  | none => "medium"
  | some s => if s ≥ 0.9 then "high" else if s ≥ 0.7 then "medium" else "low"

/-- Embeds the TS guard (typeof raw.confidence is number ? raw.confidence :
undefined). -/
def jNumOpt (v : JVal) : Option ℚ :=
  match v with
  | JVal.num q => some q
  | _ => none

/-- Embeds the TS guard (typeof raw.severity is string ? raw.severity :
undefined). -/
def jStrOpt (v : JVal) : Option String :=
  match v with
  | JVal.str s => some s
  | _ => none

/-- sanitizeScanResponse of sanitizer.ts: treat raw.safe strictly-unequal to
false as safe; the safe branch returns exactly a safe flag and a reason, the
unsafe branch the normalized threat type, derived severity, bucketed
confidence, reason with guidance fallback, and guidance. -/
def sanitizeScanResponse (raw : RawScan) : ScanVerdict :=
  if raw.safe ≠ JVal.bool false then
    { safe := true, reason := jsOrStr raw.reason "" }
  else
    { safe := false
      threat_type := some (normalizeThreatType raw.threat_type)
      severity := some (deriveSeverity (normalizeThreatType raw.threat_type) (jStrOpt raw.severity))
      confidence := some (ConfVal.str (bucketConfidence (jNumOpt raw.confidence)))
      reason := jsOrStr raw.reason
        (jsOrStr (THREAT_GUIDANCE.lookup (normalizeThreatType raw.threat_type))
          (jsOrStr (THREAT_GUIDANCE.lookup "unknown") ""))
      guidance := some
        (jsOrStr (THREAT_GUIDANCE.lookup (normalizeThreatType raw.threat_type))
          (jsOrStr (THREAT_GUIDANCE.lookup "unknown") "")) }

/-- Typed content part of an OpenAI multimodal user message (and Anthropic
content block: both carry a type tag and an optional text). -/
structure ContentPart where
  type : String
  text : Option String
deriving DecidableEq, Repr

/-- Content of a chat message: a flat string, a list of typed parts, or
null/undefined. -/
inductive MsgContent where
  | str (s : String)
  | parts (ps : List ContentPart)
  | nullc
deriving DecidableEq, Repr

/-- Chat message as consumed by the extractors: a role plus content. -/
structure ChatMessage where
  role : String
  content : MsgContent
deriving DecidableEq, Repr

/-- Embeds the inner loop of the extractors on one typed part: the part
contributes its text only when its type is the text tag and the text is
truthy (present and non-empty). -/
def codePartText (p : ContentPart) : Option String :=
  if p.type = "text" then
    match p.text with
    | some t => if t = "" then none else some t
    | none => none
  else none

/-- Spans one message contributes in ShrikeOpenAI._extractUserContent: the
outer guard requires role user AND truthy content, so a user message whose
flat content is the empty string is skipped. -/
def codeMsgSpansOpenAI (m : ChatMessage) : List String :=
  if m.role = "user" then
    match m.content with
    | MsgContent.str s => if s = "" then [] else [s]
    | MsgContent.parts ps => ps.filterMap codePartText
    | MsgContent.nullc => []
  else []

/-- ShrikeOpenAI._extractUserContent: push the spans of every message in
order, then join with a newline. -/
def extractUserContent (messages : List ChatMessage) : String :=
  String.intercalate "\n" (messages.flatMap codeMsgSpansOpenAI)

/-- Spans one message contributes in ShrikeAnthropic._extractUserContent:
only the role is guarded, so a flat string content is pushed verbatim even
when empty; null content falls through both typeof tests and contributes
nothing. -/
def codeMsgSpansAnthropic (m : ChatMessage) : List String :=
  if m.role = "user" then
    match m.content with
    | MsgContent.str s => [s]
    | MsgContent.parts ps => ps.filterMap codePartText
    | MsgContent.nullc => []
  else []

/-- ShrikeAnthropic._extractUserContent. -/
def anthropicExtractUserContent (messages : List ChatMessage) : String :=
  String.intercalate "\n" (messages.flatMap codeMsgSpansAnthropic)

/-- Item of a Gemini content array at runtime: a bare string or a part
object with an optional text field. -/
inductive GItem where
  | str (s : String)
  | part (text : Option String)
deriving DecidableEq, Repr

/-- Gemini content value: a bare string, an array of items, or an object
with optional text and parts fields. -/
inductive GContent where
  | str (s : String)
  | arr (items : List GItem)
  | obj (text : Option String) (parts : Option (List GItem))
deriving DecidableEq, Repr

/-- Text one array item contributes in ShrikeGemini._extractContent: string
items are pushed verbatim (even empty), part objects only when their text
field is truthy. -/
def gemItemText (it : GItem) : Option String :=
  match it with
  | GItem.str s => some s
  | GItem.part t =>
    match t with
    | some s => if s = "" then none else some s
    | none => none

/-- Array branch of ShrikeGemini._extractContent. -/
def gemExtractItems (items : List GItem) : String :=
  String.intercalate "\n" (items.filterMap gemItemText)

/-- Object branch fallback of ShrikeGemini._extractContent: a present parts
array (even empty) is recursed into through the array branch; otherwise the
value falls through to the JS String() conversion, which renders a plain
object as the string below. -/
def gemObjFallback (parts : Option (List GItem)) : String :=
  match parts with
  | some ps => gemExtractItems ps
  | none => "[object Object]"

/-- ShrikeGemini._extractContent: strings verbatim, arrays item-wise, and
objects via a truthy text field, else a present parts field, else the JS
String() conversion of the object. -/
def gemExtractContent (contents : GContent) : String :=
  match contents with
  | GContent.str s => s
  | GContent.arr items => gemExtractItems items
  | GContent.obj t p =>
    match t with
    | some s => if s ≠ "" then s else gemObjFallback p
    | none => gemObjFallback p

/-- Embeds the JS test (not s.trim()): true exactly when every character is
whitespace, i.e. the trimmed string is empty. -/
def jsBlank (s : String) : Bool :=
  s.data.all (fun c => c.isWhitespace)

/-- Decision taken by a scan entry point before any network activity: either
a locally produced verdict with no network call, or a network round-trip on
the given content. -/
inductive ScanDecision where
  | skip (v : ScanVerdict)
  | network (content : String)
deriving DecidableEq, Repr

/-- ShrikeOpenAI._scanMessages up to the network boundary: extract, return a
trivially-safe verdict when the text is empty or whitespace-only, otherwise
proceed to _remoteScan with the extracted text. The Anthropic wrapper has
the identical body over its own extractor. -/
def scanMessagesDecision (messages : List ChatMessage) : ScanDecision :=
  if jsBlank (extractUserContent messages) then
    ScanDecision.skip { safe := true, reason := "No user content to scan" }
  else
    ScanDecision.network (extractUserContent messages)

/-- ShrikeGemini._scanContent up to the network boundary; note its skip
reason differs from the chat wrappers. -/
def scanContentDecision (contents : GContent) : ScanDecision :=
  if jsBlank (gemExtractContent contents) then
    ScanDecision.skip { safe := true, reason := "No text content to scan" }
  else
    ScanDecision.network (gemExtractContent contents)

/-- MAX_CONTENT_SIZE of scanner.ts: 100 KiB, measured in string length. -/
def MAX_CONTENT_SIZE : Nat := 100 * 1024

/-- Embeds Math.round(n / 1024) for a natural n: the JS division is exact in
binary floating point for these magnitudes, and Math.round is half-up. -/
def jsRoundDivKB (n : Nat) : Nat := (n + 512) / 1024

/-- Verdict synthesized locally by the ScanClient size guards. -/
def sizeLimitVerdict (reason : String) (description : String) : ScanVerdict :=
  { safe := false
    reason := reason
    threat_type := some "size_limit_exceeded"
    confidence := some (ConfVal.num 1)
    violations := some [{ type := "size_limit", description := description }] }

/-- ScanClient.scan up to the network boundary: combined prompt-plus-context
size strictly above the cap short-circuits with a local size_limit_exceeded
verdict, otherwise the request goes out. -/
def clientScanDecision (prompt : String) (context : Option String) : ScanDecision :=
  if MAX_CONTENT_SIZE < prompt.length + (match context with | some c => c.length | none => 0) then
    ScanDecision.skip (sizeLimitVerdict
      ("Content too large (" ++
        toString (jsRoundDivKB (prompt.length + (match context with | some c => c.length | none => 0))) ++
        "KB > 100KB limit)")
      "Content exceeds maximum size of 100KB")
  else
    ScanDecision.network prompt

/-- ScanClient.scanSql up to the network boundary (size check on the query
alone). -/
def clientScanSqlDecision (query : String) : ScanDecision :=
  if MAX_CONTENT_SIZE < query.length then
    ScanDecision.skip (sizeLimitVerdict
      ("SQL query too large (" ++ toString (jsRoundDivKB query.length) ++ "KB > 100KB limit)")
      "Query exceeds maximum size of 100KB")
  else
    ScanDecision.network query

/-- ScanClient.scanFile up to the network boundary (size check on path plus
optional file content). -/
def clientScanFileDecision (path : String) (content : Option String) : ScanDecision :=
  if MAX_CONTENT_SIZE < path.length + (match content with | some c => c.length | none => 0) then
    ScanDecision.skip (sizeLimitVerdict
      ("File content too large (" ++
        toString (jsRoundDivKB (path.length + (match content with | some c => c.length | none => 0))) ++
        "KB > 100KB limit)")
      "Content exceeds maximum size of 100KB")
  else
    ScanDecision.network path

/-- ShrikeOpenAI._remoteScan up to the network boundary: the method body
performs no size validation and proceeds directly to the fetch (likewise the
Anthropic and Gemini _remoteScan bodies). -/
def remoteScanDecision (prompt : String) : ScanDecision :=
  ScanDecision.network prompt

/-- ShrikeOpenAI.scanSql up to the network boundary: unlike
ScanClient.scanSql, the wrapper method has no size guard. -/
def wrapperScanSqlDecision (query : String) : ScanDecision :=
  ScanDecision.network query

/-- ShrikeOpenAI.scanFile up to the network boundary: unlike
ScanClient.scanFile, the wrapper method has no size guard. -/
def wrapperScanFileDecision (path : String) : ScanDecision :=
  ScanDecision.network path

/-- Outcome of the single scan HTTP round-trip, as the wrapper code
discriminates it: a parsed 2xx JSON body, a non-2xx status, an abort of the
timeout controller (the catch branch testing for an abort message), or any
other transport error with its message. -/
inductive HttpOutcome where
  | ok (body : RawScan)
  | httpError (status : Nat)
  | aborted
  | netError (msg : String)
deriving DecidableEq, Repr

/-- Error taxonomy of errors.ts (whose source sits appended inside
src/CHANGELOG.md): every error carries a message; ShrikeBlockedError
additionally carries threatType (optional string), confidence (optional
number-or-string), and violations (defaulting to the empty list), with its
details record derived from exactly these three fields; ShrikeScanError and
ShrikeConfigError carry only their message (and an optional details record
the SDK never populates). The base ShrikeError class is abstract here: the
interception flows construct only the subclasses below. -/
inductive ShrikeErr where
  | scanError (msg : String)
  | blockedError (msg : String) (threatType : Option String)
      (confidence : Option ConfVal) (violations : List Violation)
  | configError (msg : String)
deriving DecidableEq, Repr

/-- Message of the ShrikeScanError raised on timeout under fail-closed; the
quotes around the word closed are ASCII apostrophes (character 39). -/
def timeoutClosedMsg : String :=
  "Scan request timed out and fail_mode is " ++ String.mk [Char.ofNat 39] ++
    "closed" ++ String.mk [Char.ofNat 39]

/-- The _remoteScan failure handling shared verbatim by the OpenAI,
Anthropic and Gemini wrappers, resolved against a transport outcome: a 2xx
body is sanitized; every infrastructure failure is resolved by comparing the
stored fail mode against the string open — non-2xx, abort and other
transport errors each yield an annotated safe verdict under open and a
ShrikeScanError otherwise. -/
def remoteScan (failMode : String) (outcome : HttpOutcome) : Except ShrikeErr ScanVerdict :=
  match outcome with
  | HttpOutcome.ok raw => Except.ok (sanitizeScanResponse raw)
  | HttpOutcome.httpError status =>
    if failMode = "open" then
      Except.ok { safe := true, reason := "Scan API error: " ++ toString status }
    else
      Except.error (ShrikeErr.scanError ("Scan API returned error: " ++ toString status))
  | HttpOutcome.aborted =>
    if failMode = "open" then
      Except.ok { safe := true, reason := "Scan timeout, failing open" }
    else
      Except.error (ShrikeErr.scanError timeoutClosedMsg)
  | HttpOutcome.netError m =>
    if failMode = "open" then
      Except.ok { safe := true, reason := "Scan error: " ++ m }
    else
      Except.error (ShrikeErr.scanError ("Scan failed: " ++ m))

/-- ScanClient.scan response handling, resolved against a transport
outcome: the ScanClient has no fail mode — a non-2xx response throws a
plain Error with the status embedded, and an abort or other transport
rejection propagates to the caller unchanged (modelled by its message,
AbortError for the abort of the timeout controller); only a 2xx body yields
a verdict, after sanitization. -/
def clientScanResult (outcome : HttpOutcome) : Except String ScanVerdict :=
  match outcome with
  | HttpOutcome.ok raw => Except.ok (sanitizeScanResponse raw)
  | HttpOutcome.httpError status =>
    Except.error ("Scan API returned error: " ++ toString status)
  | HttpOutcome.aborted => Except.error "AbortError"
  | HttpOutcome.netError m => Except.error m

/-- Fail mode stored by the wrapper constructors: a string option value is
stored as-is with no validation, an absent one falls back to the default
open mode (identical logic in the OpenAI, Anthropic and Gemini
constructors). -/
def storedFailMode (failMode : Option String) : String :=
  match failMode with
  | some s => s
  | none => "open"

/-- Outcome of one guarded generation call: a ShrikeBlockedError raised on
an unsafe verdict, a propagated ShrikeScanError, or the original request
forwarded unmodified to the wrapped provider. -/
inductive CreateOutcome (α : Type) where
  | blocked (e : ShrikeErr)
  | scanFailed (e : ShrikeErr)
  | forwarded (request : α)
deriving DecidableEq, Repr

/-- ShrikeBlockedError built by the OpenAI and Anthropic create methods from
an unsafe verdict: message prefixed with Request blocked, falsy reason
replaced by a default, violations defaulted to the empty list. -/
def blockedFromVerdict (v : ScanVerdict) : ShrikeErr :=
  ShrikeErr.blockedError
    ("Request blocked: " ++ jsOrStr (some v.reason) "Security threat detected")
    v.threat_type v.confidence (v.violations.getD [])

/-- ShrikeBlockedError built by the four Gemini entry points
(generateContent, generateContentStream, sendMessage, sendMessageStream):
the message is the verdict reason itself with a Gemini-specific default. -/
def gemBlockedFromVerdict (v : ScanVerdict) : ShrikeErr :=
  ShrikeErr.blockedError
    (jsOrStr (some v.reason) "Request blocked by Shrike")
    v.threat_type v.confidence (v.violations.getD [])

/-- CompletionsNamespace.create of the OpenAI wrapper, with the scan
round-trip outcome supplied as a parameter: scan the messages (skipping the
network on blank content), propagate a scan failure, raise a blocking error
on an unsafe verdict, otherwise forward the original request. -/
def completionsCreate (failMode : String) (messages : List ChatMessage)
    (outcome : HttpOutcome) : CreateOutcome (List ChatMessage) :=
  match scanMessagesDecision messages with
  | ScanDecision.skip v =>
    if v.safe then CreateOutcome.forwarded messages
    else CreateOutcome.blocked (blockedFromVerdict v)
  | ScanDecision.network _ =>
    match remoteScan failMode outcome with
    | Except.error e => CreateOutcome.scanFailed e
    | Except.ok v =>
      if v.safe then CreateOutcome.forwarded messages
      else CreateOutcome.blocked (blockedFromVerdict v)

/-- ShrikeOpenAI._scanMessages shape reused by the Anthropic wrapper over
its own extractor (the skip reason string is the same). -/
def anthropicScanDecision (messages : List ChatMessage) : ScanDecision :=
  if jsBlank (anthropicExtractUserContent messages) then
    ScanDecision.skip { safe := true, reason := "No user content to scan" }
  else
    ScanDecision.network (anthropicExtractUserContent messages)

/-- MessagesNamespace.create of the Anthropic wrapper. -/
def anthropicMessagesCreate (failMode : String) (messages : List ChatMessage)
    (outcome : HttpOutcome) : CreateOutcome (List ChatMessage) :=
  match anthropicScanDecision messages with
  | ScanDecision.skip v =>
    if v.safe then CreateOutcome.forwarded messages
    else CreateOutcome.blocked (blockedFromVerdict v)
  | ScanDecision.network _ =>
    match remoteScan failMode outcome with
    | Except.error e => CreateOutcome.scanFailed e
    | Except.ok v =>
      if v.safe then CreateOutcome.forwarded messages
      else CreateOutcome.blocked (blockedFromVerdict v)

/-- The guarded Gemini generation call: the bodies of generateContent,
generateContentStream, sendMessage and sendMessageStream are identical, so
one definition embeds all four entry points. -/
def geminiGuardedCall (failMode : String) (contents : GContent)
    (outcome : HttpOutcome) : CreateOutcome GContent :=
  match scanContentDecision contents with
  | ScanDecision.skip v =>
    if v.safe then CreateOutcome.forwarded contents
    else CreateOutcome.blocked (gemBlockedFromVerdict v)
  | ScanDecision.network _ =>
    match remoteScan failMode outcome with
    | Except.error e => CreateOutcome.scanFailed e
    | Except.ok v =>
      if v.safe then CreateOutcome.forwarded contents
      else CreateOutcome.blocked (gemBlockedFromVerdict v)

/-- Modelled from the spec wording of the extractor contract (used only to
compare against the source extractors): the newline-joined concatenation, in
original order, of exactly the user-role text spans — flat string contents
of user-role messages verbatim, and among typed content blocks only those
whose type is text. -/
def specMsgSpans (m : ChatMessage) : List String :=
  if m.role = "user" then
    match m.content with
    | MsgContent.str s => [s]
    | MsgContent.parts ps =>
      ps.filterMap (fun p => if p.type = "text" then some (p.text.getD "") else none)
    | MsgContent.nullc => []
  else []

/-- Modelled from the spec wording of the extractor contract: see
specMsgSpans. -/
def specExtractUserContent (ms : List ChatMessage) : String :=
  String.intercalate "\n" (ms.flatMap specMsgSpans)

/-- Non-empty text spans of a typed part list, written as an independent
filter pipeline for comparison with the source loop. -/
def specPartTextsNonempty (ps : List ContentPart) : List String :=
  ((ps.filter (fun p => p.type == "text")).filterMap (fun p => p.text)).filter
    (fun t => t != "")

/-- Amended spec-side spans of one message for the OpenAI extractor: flat
strings only when non-empty, blocks only with the text tag and non-empty
text. -/
def amendedSpansOpenAI (m : ChatMessage) : List String :=
  match m.content with
  | MsgContent.str s => if s = "" then [] else [s]
  | MsgContent.parts ps => specPartTextsNonempty ps
  | MsgContent.nullc => []

/-- Amended spec-side spans of one message for the Anthropic extractor: flat
strings verbatim including the empty string, blocks as in the OpenAI
variant. -/
def amendedSpansAnthropic (m : ChatMessage) : List String :=
  match m.content with
  | MsgContent.str s => [s]
  | MsgContent.parts ps => specPartTextsNonempty ps
  | MsgContent.nullc => []

/-- Example conversation of the spec round-trip property. -/
def exMsgsABC : List ChatMessage :=
  [{ role := "user", content := MsgContent.str "A" },
   { role := "assistant", content := MsgContent.str "B" },
   { role := "user", content := MsgContent.str "C" }]

/-- Example conversation with an empty-string user content. -/
def exMsgsEmptyUser : List ChatMessage :=
  [{ role := "user", content := MsgContent.str "" },
   { role := "user", content := MsgContent.str "C" }]

/-- Example one-message conversation with non-blank user content. -/
def exMsgsHi : List ChatMessage :=
  [{ role := "user", content := MsgContent.str "hi" }]

/-- Example conversation whose user content is whitespace-only. -/
def exMsgsBlank : List ChatMessage :=
  [{ role := "user", content := MsgContent.str "  " }]

/-- Example unsafe backend payload (the spec scenario: tautology_or with
confidence 0.97, plus an internal field that must be stripped). -/
def exRawUnsafe : RawScan :=
  { safe := JVal.bool false
    reason := some "bad stuff"
    threat_type := some "tautology_or"
    severity := JVal.undef
    confidence := JVal.num 0.97
    violations := none
    guidance := none
    extra := [("detected_by", "regex_layer")] }

/-- Example unsafe backend payload carrying a non-empty violations list
(its confidence is absent, so no numeric bucketing is involved). -/
def exRawViol : RawScan :=
  { safe := JVal.bool false
    reason := some "inj"
    threat_type := some "prompt_injection"
    severity := JVal.undef
    confidence := JVal.undef
    violations := some [{ type := "prompt_injection", description := "pattern-x" }]
    guidance := none
    extra := [] }

/-- Example payload whose safe field holds a non-boolean value. -/
def exRawWeird : RawScan :=
  { safe := JVal.str "yes"
    reason := none
    threat_type := some "pii"
    severity := JVal.str "high"
    confidence := JVal.num 0.5
    violations := some [{ type := "pii", description := "ssn" }]
    guidance := some "internal"
    extra := [("matched_pattern", "p1")] }

/-- Example prompt of 102401 ASCII characters: one byte over the 100 KiB
cap. -/
def bigPrompt : String := String.mk (List.replicate 102401 (Char.ofNat 97))

/-- Example one-message conversation carrying the oversized prompt. -/
def exMsgsBig : List ChatMessage :=
  [{ role := "user", content := MsgContent.str bigPrompt }]

lemma jsOrStr_empty (x : Option String) : jsOrStr x "" = x.getD "" := by
  cases x with
  | none => rfl
  | some s =>
    by_cases h : s = "" <;> simp [jsOrStr, h]

/-- Evaluation of the sanitizer on the example unsafe payload (the spec
scenario input). -/
lemma sanitize_exRawUnsafe :
    sanitizeScanResponse exRawUnsafe =
      { safe := false, reason := "bad stuff",
        threat_type := some "sql_injection", severity := some "critical",
        confidence := some (ConfVal.str "high"),
        guidance := some "This query contains potentially dangerous SQL patterns." } := by
  have hb : bucketConfidence (jNumOpt exRawUnsafe.confidence) = "high" := by
    norm_num [exRawUnsafe, jNumOpt, bucketConfidence]
  rw [sanitizeScanResponse, if_neg (by decide), hb]
  decide

/-- C2: sanitizeScanResponse emits only the public vocabulary — a safe
output is exactly the safe flag and a reason (no threat_type, severity,
confidence or guidance), an unsafe output carries exactly safe, threat_type,
severity, confidence, reason and guidance, and no internal backend field
(detected_by, matched_pattern, scan_stage, policy_id, ...) ever appears. -/
theorem sanitize_public_vocabulary (raw : RawScan) :
    (sanitizeScanResponse raw).extra = [] ∧
    (sanitizeScanResponse raw).violations = none ∧
    ((sanitizeScanResponse raw).safe = true →
      (sanitizeScanResponse raw).threat_type = none ∧
      (sanitizeScanResponse raw).severity = none ∧
      (sanitizeScanResponse raw).confidence = none ∧
      (sanitizeScanResponse raw).guidance = none) ∧
    ((sanitizeScanResponse raw).safe = false →
      ((sanitizeScanResponse raw).threat_type).isSome = true ∧
      ((sanitizeScanResponse raw).severity).isSome = true ∧
      ((sanitizeScanResponse raw).confidence).isSome = true ∧
      ((sanitizeScanResponse raw).guidance).isSome = true) ∧
    (∀ k, k ∈ INTERNAL_FIELDS → ¬ k ∈ ((sanitizeScanResponse raw).extra.map Prod.fst)) := by
  by_cases h : raw.safe = JVal.bool false
  · rw [sanitizeScanResponse, if_neg (by simp [h])]
    simp
  · rw [sanitizeScanResponse, if_pos h]
    simp

/-- C2 witness: the invariant instantiated on the example unsafe payload,
which carries an internal detected_by field in its raw form. -/
theorem sanitize_public_vocabulary_witness :
    (sanitizeScanResponse exRawUnsafe).extra = [] ∧
    ((sanitizeScanResponse exRawUnsafe).threat_type).isSome = true := by
  have h := sanitize_public_vocabulary exRawUnsafe
  exact ⟨h.1, (h.2.2.2.1 (by decide)).1⟩

/-- C7: the sanitizer treats raw.safe strictly-unequal to false as safe, so
a payload whose safe field is missing, undefined, or any non-false value
yields exactly a safe verdict with reason raw.reason-or-empty and every
other raw field discarded. -/
theorem sanitize_default_safe (raw : RawScan) (h : raw.safe ≠ JVal.bool false) :
    sanitizeScanResponse raw = { safe := true, reason := raw.reason.getD "" } := by
  rw [sanitizeScanResponse, if_pos h, jsOrStr_empty]

/-- C7 witness: a payload whose safe field holds the string yes is treated
as safe and fully stripped. -/
theorem sanitize_default_safe_witness :
    sanitizeScanResponse exRawWeird = { safe := true, reason := "" } :=
  sanitize_default_safe exRawWeird (by decide)

/-- C8: every unsafe sanitized verdict carries a bucketed string confidence
(high for scores at least 0.9, medium for scores at least 0.7, low below,
medium when the raw confidence is absent or not a number), and the raw
numeric score never appears in the output. -/
theorem sanitize_confidence_bucketed (raw : RawScan) (h : raw.safe = JVal.bool false) :
    (sanitizeScanResponse raw).confidence =
      some (ConfVal.str (bucketConfidence (jNumOpt raw.confidence))) ∧
    (∀ s : Option ℚ, bucketConfidence s = "high" ∨ bucketConfidence s = "medium" ∨
      bucketConfidence s = "low") ∧
    (∀ q : ℚ, 0.9 ≤ q → bucketConfidence (some q) = "high") ∧
    (∀ q : ℚ, q < 0.9 → 0.7 ≤ q → bucketConfidence (some q) = "medium") ∧
    (∀ q : ℚ, q < 0.7 → bucketConfidence (some q) = "low") ∧
    bucketConfidence none = "medium" ∧
    (∀ j : JVal, (∀ q : ℚ, j ≠ JVal.num q) → jNumOpt j = none) ∧
    (∀ q : ℚ, (sanitizeScanResponse raw).confidence ≠ some (ConfVal.num q)) := by
  have hconf : (sanitizeScanResponse raw).confidence =
      some (ConfVal.str (bucketConfidence (jNumOpt raw.confidence))) := by
    rw [sanitizeScanResponse, if_neg (by simp [h])]
  refine ⟨hconf, ?_, ?_, ?_, ?_, rfl, ?_, ?_⟩
  · intro s
    cases s with
    | none => right; left; rfl
    | some q =>
      simp only [bucketConfidence]
      split_ifs <;> simp
  · intro q hq
    simp only [bucketConfidence]
    rw [if_pos hq]
  · intro q h1 h2
    simp only [bucketConfidence]
    rw [if_neg (not_le.mpr h1), if_pos h2]
  · intro q h1
    simp only [bucketConfidence]
    rw [if_neg (not_le.mpr (h1.trans (by norm_num))), if_neg (not_le.mpr h1)]
  · intro j hj
    cases j with
    | num q => exact absurd rfl (hj q)
    | undef => rfl
    | null => rfl
    | bool b => rfl
    | str s => rfl
  · intro q
    rw [hconf]
    simp

/-- C8 witness: the spec examples — a raw score of 0.97 (and 0.95) buckets
to high, 0.75 to medium, 0.5 to low — instantiated through the sanitizer on
the example unsafe payload. -/
theorem sanitize_confidence_bucketed_witness :
    (sanitizeScanResponse exRawUnsafe).confidence = some (ConfVal.str "high") ∧
    bucketConfidence (some 0.95) = "high" ∧
    bucketConfidence (some 0.75) = "medium" ∧
    bucketConfidence (some 0.5) = "low" := by
  have h := sanitize_confidence_bucketed exRawUnsafe rfl
  refine ⟨?_, h.2.2.1 0.95 (by norm_num),
    h.2.2.2.1 0.75 (by norm_num) (by norm_num),
    h.2.2.2.2.1 0.5 (by norm_num)⟩
  rw [h.1]
  norm_num [exRawUnsafe, jNumOpt, bucketConfidence]

lemma lookup_mem_values {l : List (String × String)} {k v : String}
    (h : l.lookup k = some v) : v ∈ l.map Prod.snd := by
  induction l with
  | nil => simp at h
  | cons p l ih =>
    obtain ⟨a, b⟩ := p
    rw [List.lookup_cons] at h
    cases hab : (k == a) with
    | true =>
      rw [hab] at h
      simp only [Option.some.injEq] at h
      simp [h.symm]
    | false =>
      rw [hab] at h
      simp only [List.map_cons, List.mem_cons]
      exact Or.inr (ih h)

lemma jsIndex_own_lookup {m : List (String × String)} {k v : String}
    (h : jsIndex m k = JsLookup.own v) : m.lookup k = some v := by
  rw [jsIndex] at h
  cases hl : m.lookup k with
  | some w =>
    rw [hl] at h
    simp only [JsLookup.own.injEq] at h
    rw [h]
  | none =>
    rw [hl] at h
    by_cases hk : k ∈ OBJECT_PROTOTYPE_KEYS <;> simp [hk] at h

set_option maxRecDepth 10000 in
/-- C9 counterexample: the input constructor is not a key of the synonym
table, yet the object-bracket lookup hits the inherited
Object.prototype.constructor — truthy and non-string — so it is returned
instead of unknown (and a second application would throw); the input
--proto-- reaches the inherited proto accessor the same way. -/
theorem normalizeThreatType_proto_counterexample :
    THREAT_TYPE_MAP.lookup (jsNormalize "constructor") = none ∧
    normalizeThreatTypeJS (some "constructor") = ThreatTypeResult.protoLeak "constructor" ∧
    ¬ normalizeThreatTypeJS (some "constructor") = ThreatTypeResult.str "unknown" ∧
    normalizeThreatTypeJS (some "--proto--") = ThreatTypeResult.protoLeak "__proto__" := by
  decide

set_option maxRecDepth 10000 in
/-- C9 amended: normalizeThreatType is idempotent on its string outputs —
whenever an application returns a string s, applying it to s returns s
again; every value in the synonym table range is a fixed point and unknown
is a fixed point; but an input whose lowercased hyphen-folded form names an
Object.prototype member that is not a table key returns the truthy
inherited non-string prototype value instead of unknown. -/
theorem normalizeThreatType_idem_amended :
    (∀ (t : Option String) (s : String),
      normalizeThreatTypeJS t = ThreatTypeResult.str s →
      normalizeThreatTypeJS (some s) = ThreatTypeResult.str s) ∧
    (∀ v : String, v ∈ THREAT_TYPE_MAP.map Prod.snd →
      normalizeThreatTypeJS (some v) = ThreatTypeResult.str v) ∧
    normalizeThreatTypeJS (some "unknown") = ThreatTypeResult.str "unknown" ∧
    (∀ t : String, ¬ t = "" →
      THREAT_TYPE_MAP.lookup (jsNormalize t) = none →
      jsNormalize t ∈ OBJECT_PROTOTYPE_KEYS →
      normalizeThreatTypeJS (some t) = ThreatTypeResult.protoLeak (jsNormalize t)) := by
  have hfix : ∀ v ∈ THREAT_TYPE_MAP.map Prod.snd,
      normalizeThreatTypeJS (some v) = ThreatTypeResult.str v := by decide
  have hunk : normalizeThreatTypeJS (some "unknown") = ThreatTypeResult.str "unknown" := by
    decide
  refine ⟨?_, hfix, hunk, ?_⟩
  · intro t s hts
    match t with
    | none =>
      simp only [normalizeThreatTypeJS, ThreatTypeResult.str.injEq] at hts
      rw [← hts]
      exact hunk
    | some u =>
      by_cases hu : u = ""
      · subst hu
        have h0 : normalizeThreatTypeJS (some "") = ThreatTypeResult.str "unknown" := rfl
        rw [h0] at hts
        simp only [ThreatTypeResult.str.injEq] at hts
        rw [← hts]
        exact hunk
      · cases hL : jsIndex THREAT_TYPE_MAP (jsNormalize u) with
        | own v =>
          have hvmem : v ∈ THREAT_TYPE_MAP.map Prod.snd :=
            lookup_mem_values (jsIndex_own_lookup hL)
          have hvne : ¬ v = "" := by
            have hne : ∀ w ∈ THREAT_TYPE_MAP.map Prod.snd, ¬ w = "" := by decide
            exact hne v hvmem
          have hres : normalizeThreatTypeJS (some u) = ThreatTypeResult.str v := by
            simp [normalizeThreatTypeJS, hu, hL, jsOrStr, hvne]
          rw [hres] at hts
          simp only [ThreatTypeResult.str.injEq] at hts
          rw [← hts]
          exact hfix v hvmem
        | inherited =>
          have hres : normalizeThreatTypeJS (some u) =
              ThreatTypeResult.protoLeak (jsNormalize u) := by
            simp [normalizeThreatTypeJS, hu, hL]
          rw [hres] at hts
          exact absurd hts (by simp)
        | undef =>
          have hres : normalizeThreatTypeJS (some u) = ThreatTypeResult.str "unknown" := by
            simp [normalizeThreatTypeJS, hu, hL]
          rw [hres] at hts
          simp only [ThreatTypeResult.str.injEq] at hts
          rw [← hts]
          exact hunk
  · intro t ht hlk hmem
    have hidx : jsIndex THREAT_TYPE_MAP (jsNormalize t) = JsLookup.inherited := by
      rw [jsIndex, hlk, if_pos hmem]
    simp [normalizeThreatTypeJS, ht, hidx]

set_option maxRecDepth 10000 in
/-- C9 amended witness: applying the normalization a second time to the
string output sql_injection (reached from tautology_or) is the identity,
while the non-key input constructor reaches the prototype chain. -/
theorem normalizeThreatType_idem_amended_witness :
    normalizeThreatTypeJS (some "sql_injection") = ThreatTypeResult.str "sql_injection" ∧
    normalizeThreatTypeJS (some "constructor") = ThreatTypeResult.protoLeak "constructor" := by
  have h := normalizeThreatType_idem_amended
  exact ⟨h.1 (some "tautology_or") "sql_injection" (by decide),
    h.2.2.2 "constructor" (by decide) (by decide) (by decide)⟩

lemma codePartText_filterMap (ps : List ContentPart) :
    ps.filterMap codePartText = specPartTextsNonempty ps := by
  induction ps with
  | nil => rfl
  | cons p ps ih =>
    unfold specPartTextsNonempty at ih ⊢
    by_cases ht : p.type = "text"
    · cases hx : p.text with
      | none => simp [List.filterMap_cons, List.filter_cons, codePartText, ht, hx, ih]
      | some t =>
        by_cases hte : t = "" <;>
          simp [List.filterMap_cons, List.filter_cons, codePartText, ht, hx, hte, ih]
    · simp [List.filterMap_cons, List.filter_cons, codePartText, ht, ih]

lemma codeMsgSpansOpenAI_user (m : ChatMessage) (h : m.role = "user") :
    codeMsgSpansOpenAI m = amendedSpansOpenAI m := by
  obtain ⟨role, content⟩ := m
  have h2 : role = "user" := h
  cases content <;>
    simp [codeMsgSpansOpenAI, amendedSpansOpenAI, h2, codePartText_filterMap]

lemma codeMsgSpansOpenAI_other (m : ChatMessage) (h : ¬ m.role = "user") :
    codeMsgSpansOpenAI m = [] := by
  simp [codeMsgSpansOpenAI, h]

lemma codeMsgSpansAnthropic_user (m : ChatMessage) (h : m.role = "user") :
    codeMsgSpansAnthropic m = amendedSpansAnthropic m := by
  obtain ⟨role, content⟩ := m
  have h2 : role = "user" := h
  cases content <;>
    simp [codeMsgSpansAnthropic, amendedSpansAnthropic, h2, codePartText_filterMap]

lemma codeMsgSpansAnthropic_other (m : ChatMessage) (h : ¬ m.role = "user") :
    codeMsgSpansAnthropic m = [] := by
  simp [codeMsgSpansAnthropic, h]

lemma spansOpenAI_filter (ms : List ChatMessage) :
    ms.flatMap codeMsgSpansOpenAI =
      (ms.filter (fun m => m.role == "user")).flatMap amendedSpansOpenAI := by
  induction ms with
  | nil => rfl
  | cons m ms ih =>
    by_cases hr : m.role = "user"
    · simp [List.flatMap_cons, List.filter_cons, hr, ih, codeMsgSpansOpenAI_user m hr]
    · simp [List.flatMap_cons, List.filter_cons, hr, ih, codeMsgSpansOpenAI_other m hr]

lemma spansAnthropic_filter (ms : List ChatMessage) :
    ms.flatMap codeMsgSpansAnthropic =
      (ms.filter (fun m => m.role == "user")).flatMap amendedSpansAnthropic := by
  induction ms with
  | nil => rfl
  | cons m ms ih =>
    by_cases hr : m.role = "user"
    · simp [List.flatMap_cons, List.filter_cons, hr, ih, codeMsgSpansAnthropic_user m hr]
    · simp [List.flatMap_cons, List.filter_cons, hr, ih, codeMsgSpansAnthropic_other m hr]

/-- C6 counterexample: on two user messages with flat contents empty string
and C, the spec-worded extraction (all user text spans verbatim,
newline-joined) gives a leading newline, but the OpenAI extractor skips the
empty flat content (its truthiness guard) and returns C. -/
theorem extract_spec_counterexample :
    extractUserContent exMsgsEmptyUser = "C" ∧
    specExtractUserContent exMsgsEmptyUser = "\nC" ∧
    ¬ extractUserContent exMsgsEmptyUser = specExtractUserContent exMsgsEmptyUser := by
  decide

/-- C6 amended: extraction is the newline-joined concatenation, in original
order, of the user-role text spans, where typed blocks contribute their text
only when the type is text and the text is non-empty; the OpenAI variant
additionally skips user messages whose flat string content is empty, while
the Anthropic variant includes empty flat strings verbatim; in particular
the conversation user A, assistant B, user C extracts to A-newline-C in
both. -/
theorem extract_user_spans_amended :
    (∀ ms : List ChatMessage,
      extractUserContent ms =
        String.intercalate "\n"
          ((ms.filter (fun m => m.role == "user")).flatMap amendedSpansOpenAI)) ∧
    (∀ ms : List ChatMessage,
      anthropicExtractUserContent ms =
        String.intercalate "\n"
          ((ms.filter (fun m => m.role == "user")).flatMap amendedSpansAnthropic)) ∧
    extractUserContent exMsgsABC = "A\nC" ∧
    anthropicExtractUserContent exMsgsABC = "A\nC" := by
  refine ⟨?_, ?_, by decide, by decide⟩
  · intro ms
    rw [extractUserContent, spansOpenAI_filter]
  · intro ms
    rw [anthropicExtractUserContent, spansAnthropic_filter]

/-- C5 counterexample: the Gemini scan step reports reason No text content
to scan (not No user content to scan), and Gemini extraction of an object
with neither text nor parts is the JS String() rendering, not the empty
string. -/
theorem scan_skip_counterexample :
    scanContentDecision (GContent.str " ") =
      ScanDecision.skip { safe := true, reason := "No text content to scan" } ∧
    ¬ ("No text content to scan" = "No user content to scan") ∧
    gemExtractContent (GContent.obj none none) = "[object Object]" ∧
    ¬ gemExtractContent (GContent.obj none none) = "" := by
  decide

/-- C5 amended: blank (empty or whitespace-only) extracted content
short-circuits both scan steps with a safe verdict and no network call —
with reason No user content to scan for the chat wrapper and No text
content to scan for the Gemini wrapper; the OpenAI extractor returns the
empty string whenever no message contributes a span, the Gemini array
branch likewise, but a Gemini object with neither truthy text nor a parts
field extracts to the JS String() rendering of the object. -/
theorem scan_skip_amended :
    (∀ ms : List ChatMessage, jsBlank (extractUserContent ms) = true →
      scanMessagesDecision ms =
        ScanDecision.skip { safe := true, reason := "No user content to scan" }) ∧
    (∀ c : GContent, jsBlank (gemExtractContent c) = true →
      scanContentDecision c =
        ScanDecision.skip { safe := true, reason := "No text content to scan" }) ∧
    (∀ ms : List ChatMessage,
      (∀ m ∈ ms, ¬ m.role = "user" ∨ amendedSpansOpenAI m = []) →
      extractUserContent ms = "") ∧
    (∀ items : List GItem, items.filterMap gemItemText = [] →
      gemExtractItems items = "") ∧
    gemExtractContent (GContent.obj none none) = "[object Object]" := by
  refine ⟨?_, ?_, ?_, ?_, rfl⟩
  · intro ms h
    rw [scanMessagesDecision, if_pos h]
  · intro c h
    rw [scanContentDecision, if_pos h]
  · intro ms h
    have hnil : ms.flatMap codeMsgSpansOpenAI = [] := by
      induction ms with
      | nil => rfl
      | cons m ms ih =>
        have hm : codeMsgSpansOpenAI m = [] := by
          rcases h m (List.mem_cons_self m ms) with hr | hsp
          · exact codeMsgSpansOpenAI_other m hr
          · by_cases hr : m.role = "user"
            · rw [codeMsgSpansOpenAI_user m hr, hsp]
            · exact codeMsgSpansOpenAI_other m hr
        have hrest := ih (fun m hmem => h m (List.mem_cons_of_mem _ hmem))
        simp [List.flatMap_cons, hm, hrest]
    rw [extractUserContent, hnil]
    rfl
  · intro items h
    rw [gemExtractItems, h]
    rfl

/-- C5 witness: a whitespace-only one-message conversation and an empty
Gemini string both skip the network with their respective reasons. -/
theorem scan_skip_amended_witness :
    scanMessagesDecision exMsgsBlank =
      ScanDecision.skip { safe := true, reason := "No user content to scan" } ∧
    scanContentDecision (GContent.str "") =
      ScanDecision.skip { safe := true, reason := "No text content to scan" } := by
  have h := scan_skip_amended
  exact ⟨h.1 exMsgsBlank (by decide), h.2.1 (GContent.str "") (by decide)⟩

lemma intercalate_single (s : String) : String.intercalate "\n" [s] = s := rfl

lemma bigPrompt_length : bigPrompt.length = 102401 := by
  show (List.replicate 102401 (Char.ofNat 97)).length = 102401
  rw [List.length_replicate]

lemma bigPrompt_ne_empty : ¬ bigPrompt = "" := by
  intro h
  have h2 := congrArg String.length h
  rw [bigPrompt_length] at h2
  simp at h2

lemma bigPrompt_not_blank : jsBlank bigPrompt = false := by
  rw [Bool.eq_false_iff]
  intro hB
  rw [jsBlank] at hB
  have hmem : (Char.ofNat 97) ∈ bigPrompt.data := by
    show Char.ofNat 97 ∈ List.replicate 102401 (Char.ofNat 97)
    exact List.mem_replicate.mpr ⟨by norm_num, rfl⟩
  have hws := List.all_eq_true.mp hB _ hmem
  exact absurd hws (by decide)

lemma extract_exMsgsBig : extractUserContent exMsgsBig = bigPrompt := by
  rw [extractUserContent]
  have hspans : exMsgsBig.flatMap codeMsgSpansOpenAI = [bigPrompt] := by
    simp [exMsgsBig, codeMsgSpansOpenAI, bigPrompt_ne_empty]
  rw [hspans]
  exact intercalate_single bigPrompt

/-- C4 counterexample: an over-limit prompt on the wrapper scan path is
still sent to the network — ShrikeOpenAI._remoteScan (and _scanMessages
feeding it) performs no size check, so the claim that the guard applies
before every network round-trip fails on the wrapper paths. -/
theorem size_guard_counterexample :
    remoteScanDecision bigPrompt = ScanDecision.network bigPrompt ∧
    scanMessagesDecision exMsgsBig = ScanDecision.network bigPrompt ∧
    MAX_CONTENT_SIZE < bigPrompt.length := by
  refine ⟨rfl, ?_, ?_⟩
  · rw [scanMessagesDecision, extract_exMsgsBig, bigPrompt_not_blank]
    simp
  · rw [bigPrompt_length]
    norm_num [MAX_CONTENT_SIZE]

/-- C4 amended: the 100 KiB guard is enforced by the three ScanClient
methods (scan, scanSql, scanFile) before any network call, synthesizing a
local safe-false size_limit_exceeded verdict; the wrapper scan paths
(ShrikeOpenAI._remoteScan, ShrikeOpenAI.scanSql, ShrikeOpenAI.scanFile)
perform no size check and always proceed to the network. -/
theorem size_guard_amended :
    (∀ (p : String) (ctx : Option String),
      MAX_CONTENT_SIZE < p.length + (match ctx with | some c => c.length | none => 0) →
      ∃ v, clientScanDecision p ctx = ScanDecision.skip v ∧ v.safe = false ∧
        v.threat_type = some "size_limit_exceeded" ∧ (v.violations).isSome = true) ∧
    (∀ (p : String) (ctx : Option String),
      p.length + (match ctx with | some c => c.length | none => 0) ≤ MAX_CONTENT_SIZE →
      clientScanDecision p ctx = ScanDecision.network p) ∧
    (∀ q : String, MAX_CONTENT_SIZE < q.length →
      ∃ v, clientScanSqlDecision q = ScanDecision.skip v ∧ v.safe = false ∧
        v.threat_type = some "size_limit_exceeded" ∧ (v.violations).isSome = true) ∧
    (∀ (pa : String) (c : Option String),
      MAX_CONTENT_SIZE < pa.length + (match c with | some s => s.length | none => 0) →
      ∃ v, clientScanFileDecision pa c = ScanDecision.skip v ∧ v.safe = false ∧
        v.threat_type = some "size_limit_exceeded" ∧ (v.violations).isSome = true) ∧
    (∀ p : String, remoteScanDecision p = ScanDecision.network p) ∧
    (∀ q : String, wrapperScanSqlDecision q = ScanDecision.network q) ∧
    (∀ pa : String, wrapperScanFileDecision pa = ScanDecision.network pa) := by
  refine ⟨?_, ?_, ?_, ?_, fun p => rfl, fun q => rfl, fun pa => rfl⟩
  · intro p ctx h
    rw [clientScanDecision.eq_def, if_pos h]
    exact ⟨_, rfl, rfl, rfl, rfl⟩
  · intro p ctx h
    rw [clientScanDecision.eq_def, if_neg (not_lt.mpr h)]
  · intro q h
    rw [clientScanSqlDecision, if_pos h]
    exact ⟨_, rfl, rfl, rfl, rfl⟩
  · intro pa c h
    rw [clientScanFileDecision.eq_def, if_pos h]
    exact ⟨_, rfl, rfl, rfl, rfl⟩

/-- C4 witness: the over-limit prompt is caught locally by ScanClient.scan
but networked by the wrapper path. -/
theorem size_guard_amended_witness :
    (∃ v, clientScanDecision bigPrompt none = ScanDecision.skip v ∧ v.safe = false ∧
      v.threat_type = some "size_limit_exceeded" ∧ (v.violations).isSome = true) ∧
    remoteScanDecision bigPrompt = ScanDecision.network bigPrompt := by
  have h := size_guard_amended
  refine ⟨h.1 bigPrompt none ?_, h.2.2.2.2.1 bigPrompt⟩
  rw [bigPrompt_length]
  norm_num [MAX_CONTENT_SIZE]

/-- C3 counterexample: ScanClient.scan — cited by the claim as part of the
scan transport — has no FailurePolicy at all: on HTTP 500 it throws a plain
Error with the status embedded and never yields the fail-open verdict
{safe:true, reason:Scan API error: 500} that the claim prescribes for mode
open. -/
theorem scan_transport_policy_counterexample :
    clientScanResult (HttpOutcome.httpError 500) =
      Except.error ("Scan API returned error: " ++ toString 500) ∧
    ¬ clientScanResult (HttpOutcome.httpError 500) =
      Except.ok { safe := true, reason := "Scan API error: " ++ toString 500 } := by
  refine ⟨rfl, ?_⟩
  intro hv
  rw [clientScanResult] at hv
  simp at hv

/-- C3 amended: in the wrapper scan transport (_remoteScan), every
scan-infrastructure failure is resolved by the fail mode — HTTP non-2xx
yields the annotated safe verdict under open and a ShrikeScanError with the
status embedded under closed; a timeout/abort under open yields a safe
verdict whose reason contains the word timeout and the call is forwarded to
the provider unmodified, while under closed the scan-failure error is
raised and the provider is never invoked. ScanClient.scan, by contrast, has
no FailurePolicy: on non-2xx it always throws an error with the status
embedded and never produces a verdict. -/
theorem scan_failure_policy (status : Nat) (ms : List ChatMessage)
    (hne : jsBlank (extractUserContent ms) = false) :
    remoteScan "open" (HttpOutcome.httpError status) =
      Except.ok { safe := true, reason := "Scan API error: " ++ toString status } ∧
    remoteScan "closed" (HttpOutcome.httpError status) =
      Except.error (ShrikeErr.scanError ("Scan API returned error: " ++ toString status)) ∧
    (∃ v, remoteScan "open" HttpOutcome.aborted = Except.ok v ∧ v.safe = true ∧
      ∃ a b, v.reason = a ++ "timeout" ++ b) ∧
    completionsCreate "open" ms HttpOutcome.aborted = CreateOutcome.forwarded ms ∧
    completionsCreate "closed" ms HttpOutcome.aborted =
      CreateOutcome.scanFailed (ShrikeErr.scanError timeoutClosedMsg) ∧
    clientScanResult (HttpOutcome.httpError status) =
      Except.error ("Scan API returned error: " ++ toString status) ∧
    (∀ v : ScanVerdict, ¬ clientScanResult (HttpOutcome.httpError status) = Except.ok v) := by
  refine ⟨rfl, rfl, ⟨_, rfl, rfl, "Scan ", ", failing open", rfl⟩, ?_, ?_, rfl, ?_⟩
  · rw [completionsCreate, scanMessagesDecision, hne]
    rfl
  · rw [completionsCreate, scanMessagesDecision, hne]
    rfl
  · intro v hv
    rw [clientScanResult] at hv
    exact absurd hv (by simp)

/-- C3 witness: status 500 and a concrete non-blank conversation, on both
the wrapper transport and the policy-free ScanClient. -/
theorem scan_failure_policy_witness :
    remoteScan "open" (HttpOutcome.httpError 500) =
      Except.ok { safe := true, reason := "Scan API error: 500" } ∧
    remoteScan "closed" (HttpOutcome.httpError 500) =
      Except.error (ShrikeErr.scanError "Scan API returned error: 500") ∧
    completionsCreate "open" exMsgsHi HttpOutcome.aborted =
      CreateOutcome.forwarded exMsgsHi ∧
    completionsCreate "closed" exMsgsHi HttpOutcome.aborted =
      CreateOutcome.scanFailed (ShrikeErr.scanError timeoutClosedMsg) ∧
    clientScanResult (HttpOutcome.httpError 500) =
      Except.error "Scan API returned error: 500" := by
  have h := scan_failure_policy 500 exMsgsHi (by decide)
  exact ⟨h.1, h.2.1, h.2.2.2.1, h.2.2.2.2.1, h.2.2.2.2.2.1⟩

lemma sanitize_violations_none (raw : RawScan) :
    (sanitizeScanResponse raw).violations = none := by
  by_cases h : raw.safe = JVal.bool false
  · rw [sanitizeScanResponse, if_neg (by simp [h])]
  · rw [sanitizeScanResponse, if_pos h]

lemma remoteScan_ok_unsafe_violations (mode : String) (o : HttpOutcome) (v : ScanVerdict)
    (hv : remoteScan mode o = Except.ok v) (hbad : v.safe = false) :
    v.violations = none := by
  cases o with
  | ok raw =>
    have hveq : sanitizeScanResponse raw = v := by
      simpa [remoteScan] using hv
    rw [← hveq]
    exact sanitize_violations_none raw
  | httpError status =>
    by_cases hm : mode = "open"
    · rw [remoteScan, if_pos hm] at hv
      simp only [Except.ok.injEq] at hv
      rw [← hv] at hbad
      simp at hbad
    · rw [remoteScan, if_neg hm] at hv
      exact absurd hv (by simp)
  | aborted =>
    by_cases hm : mode = "open"
    · rw [remoteScan, if_pos hm] at hv
      simp only [Except.ok.injEq] at hv
      rw [← hv] at hbad
      simp at hbad
    · rw [remoteScan, if_neg hm] at hv
      exact absurd hv (by simp)
  | netError m =>
    by_cases hm : mode = "open"
    · rw [remoteScan, if_pos hm] at hv
      simp only [Except.ok.injEq] at hv
      rw [← hv] at hbad
      simp at hbad
    · rw [remoteScan, if_neg hm] at hv
      exact absurd hv (by simp)

/-- C1 counterexample: a backend payload carrying a non-empty violations
list resolves to a blocked call whose error carries the empty list — the
sanitizer discards backend violations before the wrapper reads the verdict,
so the claimed pass-through from the backend never occurs. -/
theorem blocked_violations_counterexample :
    exRawViol.violations =
      some [{ type := "prompt_injection", description := "pattern-x" }] ∧
    completionsCreate "open" exMsgsHi (HttpOutcome.ok exRawViol) =
      CreateOutcome.blocked (ShrikeErr.blockedError "Request blocked: inj"
        (some "prompt_injection") (some (ConfVal.str "medium")) []) ∧
    ¬ ([{ type := "prompt_injection", description := "pattern-x" }] : List Violation) = [] := by
  refine ⟨rfl, ?_, by decide⟩
  decide

/-- C1 amended: whenever the resolved scan verdict is unsafe, each wrapper
raises a ShrikeBlockedError carrying the verdict reason (in the message),
its threat_type and confidence, and an empty violations list — the
sanitizer discards backend violations, so the verdict never carries any —
and the provider call is never reached, for every fail mode. -/
theorem blocked_on_unsafe_verdict (mode : String) (ms : List ChatMessage)
    (c : GContent) (o : HttpOutcome) (v : ScanVerdict)
    (h1 : jsBlank (extractUserContent ms) = false)
    (h2 : jsBlank (anthropicExtractUserContent ms) = false)
    (h3 : jsBlank (gemExtractContent c) = false)
    (hv : remoteScan mode o = Except.ok v)
    (hbad : v.safe = false) :
    v.violations = none ∧
    completionsCreate mode ms o = CreateOutcome.blocked (ShrikeErr.blockedError
      ("Request blocked: " ++ jsOrStr (some v.reason) "Security threat detected")
      v.threat_type v.confidence []) ∧
    anthropicMessagesCreate mode ms o = CreateOutcome.blocked (ShrikeErr.blockedError
      ("Request blocked: " ++ jsOrStr (some v.reason) "Security threat detected")
      v.threat_type v.confidence []) ∧
    geminiGuardedCall mode c o = CreateOutcome.blocked (ShrikeErr.blockedError
      (jsOrStr (some v.reason) "Request blocked by Shrike")
      v.threat_type v.confidence []) := by
  have hviol := remoteScan_ok_unsafe_violations mode o v hv hbad
  refine ⟨hviol, ?_, ?_, ?_⟩
  · rw [completionsCreate, scanMessagesDecision, h1]
    simp [hv, hbad, blockedFromVerdict, hviol]
  · rw [anthropicMessagesCreate, anthropicScanDecision, h2]
    simp [hv, hbad, blockedFromVerdict, hviol]
  · rw [geminiGuardedCall, scanContentDecision, h3]
    simp [hv, hbad, gemBlockedFromVerdict, hviol]

/-- C1 witness: the spec scenario — a backend tautology_or verdict with
confidence 0.97 blocks the OpenAI call with normalized threat type
sql_injection and bucketed confidence high, under fail mode closed. -/
theorem blocked_on_unsafe_verdict_witness :
    completionsCreate "closed" exMsgsHi (HttpOutcome.ok exRawUnsafe) =
      CreateOutcome.blocked (ShrikeErr.blockedError "Request blocked: bad stuff"
        (some "sql_injection") (some (ConfVal.str "high")) []) := by
  have h := blocked_on_unsafe_verdict "closed" exMsgsHi (GContent.str "hi")
    (HttpOutcome.ok exRawUnsafe) (sanitizeScanResponse exRawUnsafe)
    (by decide) (by decide) (by decide) rfl ?hsafe
  case hsafe =>
    rw [sanitize_exRawUnsafe]
  rw [h.2.1, sanitize_exRawUnsafe]
  decide

/-- C10: a wrapper constructed with any fail mode string other than exactly
open — including unvalidated strings such as Open or allow, which the
constructor stores as-is — fails closed on every scan-infrastructure
failure branch: a ShrikeScanError is raised and the provider is never
invoked, because each policy check is a strict comparison with the open
mode. -/
theorem nonopen_failmode_closed (fm : Option String) (ms : List ChatMessage)
    (hne : jsBlank (extractUserContent ms) = false)
    (h : ¬ storedFailMode fm = "open") :
    (∀ status : Nat, remoteScan (storedFailMode fm) (HttpOutcome.httpError status) =
      Except.error (ShrikeErr.scanError ("Scan API returned error: " ++ toString status))) ∧
    remoteScan (storedFailMode fm) HttpOutcome.aborted =
      Except.error (ShrikeErr.scanError timeoutClosedMsg) ∧
    (∀ m : String, remoteScan (storedFailMode fm) (HttpOutcome.netError m) =
      Except.error (ShrikeErr.scanError ("Scan failed: " ++ m))) ∧
    (∀ (o : HttpOutcome) (e : ShrikeErr), remoteScan (storedFailMode fm) o = Except.error e →
      completionsCreate (storedFailMode fm) ms o = CreateOutcome.scanFailed e) ∧
    storedFailMode (some "Open") = "Open" ∧
    storedFailMode (some "allow") = "allow" := by
  refine ⟨?_, ?_, ?_, ?_, rfl, rfl⟩
  · intro status
    rw [remoteScan, if_neg h]
  · rw [remoteScan, if_neg h]
  · intro m
    rw [remoteScan, if_neg h]
  · intro o e he
    rw [completionsCreate, scanMessagesDecision, hne]
    simp [he]

/-- C10 witness: the misspelled mode Open and the unrecognized mode allow
both behave as fail-closed on an HTTP 500 and on a timeout. -/
theorem nonopen_failmode_closed_witness :
    remoteScan (storedFailMode (some "Open")) (HttpOutcome.httpError 500) =
      Except.error (ShrikeErr.scanError "Scan API returned error: 500") ∧
    completionsCreate (storedFailMode (some "allow")) exMsgsHi HttpOutcome.aborted =
      CreateOutcome.scanFailed (ShrikeErr.scanError timeoutClosedMsg) := by
  have hA := nonopen_failmode_closed (some "Open") exMsgsHi (by decide) (by decide)
  have hB := nonopen_failmode_closed (some "allow") exMsgsHi (by decide) (by decide)
  exact ⟨hA.1 500, hB.2.2.2.1 HttpOutcome.aborted _ hB.2.1⟩

end ShrikeGuard
